import Mathlib

/-!
Verification development for the QDrantIngest region-extraction and batch
pipeline.  The definitions below are shallow embeddings of the Python source:

* `crop_by_bbox`, `crop_by_segmentation`, `crop_object` embed
  `qdrantingest/image_processor.py` (`ImageProcessor._crop_by_bbox`,
  `ImageProcessor._crop_by_segmentation`, `ImageProcessor.crop_object`);
* `generate_embeddings` embeds
  `qdrantingest/embedding_generator.py` (`EmbeddingGenerator.generate_embeddings`);
* `cropBatch`, `buildUploadObjects`, `runJoinAll`, `mainExitCode` embed the
  batch loop of `main.py` (`main`, lines 147-219);
* `categoryScan` is the comparison-counting instrumentation of the category
  lookup `next(cat for cat in categories if cat['id'] == ann['category_id'])`
  in `main.py`.

Bounding-box and polygon coordinates are modelled as `Int`, corresponding to
the values after the source's `int(...)` truncation.  PIL images are modelled
by their dimensions, and PIL crop boxes `(left, upper, right, lower)` by the
`CropBox` structure (PIL's `Image.crop` returns a raster of size
`(right - left, lower - upper)`).
-/

/-- A decoded raster image as the source sees it: `image.width`, `image.height`. -/
structure PILImage where
  width : Nat
  height : Nat
deriving Repr, DecidableEq

/-- A PIL crop box `(left, upper, right, lower)`; `Image.crop` returns a
raster of dimensions `(right - left, lower - upper)` at offset
`(left, upper)` in the source image. -/
structure CropBox where
  left : Int
  upper : Int
  right : Int
  lower : Int
deriving Repr, DecidableEq

/-- Width of the raster produced by a PIL crop box. -/
def CropBox.wd (c : CropBox) : Int := c.right - c.left

/-- Height of the raster produced by a PIL crop box. -/
def CropBox.ht (c : CropBox) : Int := c.lower - c.upper

/-- Embedding of `ImageProcessor._crop_by_bbox` (image_processor.py:85-109).
`x`, `y`, `w`, `h` are the bbox entries after `int(...)` truncation.
The source clamps `x, y` to `≥ 0`, clips `w, h` to the image bounds and, when
the clipped size is degenerate (`width < 1 or height < 1`), returns the
fallback crop `image.crop((0, 0, min(10, image.width), min(10, image.height)))`
instead of failing. -/
def crop_by_bbox (image : PILImage) (x y w h : Int) : CropBox :=
  let x2 : Int := max 0 x
  let y2 : Int := max 0 y
  let width : Int := min w ((image.width : Int) - x2)
  let height : Int := min h ((image.height : Int) - y2)
  if width < 1 ∨ height < 1 then
    ⟨0, 0, min 10 (image.width : Int), min 10 (image.height : Int)⟩
  else
    ⟨x2, y2, x2 + width, y2 + height⟩

/-- C1 counterexample: for the bounding box `(50, 40, 0, 80)` on a 100×100
image the clamped width is `0 < 1`, yet `_crop_by_bbox` does not fail: it
returns the substitute crop `(0, 0, 10, 10)` — a 10×10 sample of the image. -/
theorem c1_counterexample :
    crop_by_bbox ⟨100, 100⟩ 50 40 0 80 = ⟨0, 0, 10, 10⟩ := by decide

/-- C1 (amended): for every image and bounding box whose clamped width or
height is `< 1`, `_crop_by_bbox` silently returns the substitute crop
`(0, 0, min(10, image.width), min(10, image.height))` instead of failing
with `DegenerateRegion`. -/
theorem c1_degenerate_returns_fallback (image : PILImage) (x y w h : Int)
    (hdeg : min w ((image.width : Int) - max 0 x) < 1 ∨
            min h ((image.height : Int) - max 0 y) < 1) :
    crop_by_bbox image x y w h =
      ⟨0, 0, min 10 (image.width : Int), min 10 (image.height : Int)⟩ := by
  simp only [crop_by_bbox]
  rw [if_pos hdeg]

/-- Witness for `c1_degenerate_returns_fallback` at a concrete input. -/
theorem c1_degenerate_returns_fallback_witness :
    crop_by_bbox ⟨100, 100⟩ 50 40 (-3) 80 = ⟨0, 0, 10, 10⟩ :=
  c1_degenerate_returns_fallback ⟨100, 100⟩ 50 40 (-3) 80 (by decide)

/-- C6: for a bounding box fully inside the image the crop has dimensions
exactly `(w, h)`; in general, when the clamped dimensions are `≥ 1`, the crop
has dimensions `(min w (width - max 0 x), min h (height - max 0 y))`. -/
theorem c6_bbox_crop_dimensions (image : PILImage) (x y w h : Int) :
    (0 ≤ x → 0 ≤ y → 1 ≤ w → 1 ≤ h →
      x + w ≤ (image.width : Int) → y + h ≤ (image.height : Int) →
      (crop_by_bbox image x y w h).wd = w ∧ (crop_by_bbox image x y w h).ht = h) ∧
    (1 ≤ min w ((image.width : Int) - max 0 x) →
     1 ≤ min h ((image.height : Int) - max 0 y) →
      (crop_by_bbox image x y w h).wd = min w ((image.width : Int) - max 0 x) ∧
      (crop_by_bbox image x y w h).ht = min h ((image.height : Int) - max 0 y)) := by
  have hgen : 1 ≤ min w ((image.width : Int) - max 0 x) →
      1 ≤ min h ((image.height : Int) - max 0 y) →
      (crop_by_bbox image x y w h).wd = min w ((image.width : Int) - max 0 x) ∧
      (crop_by_bbox image x y w h).ht = min h ((image.height : Int) - max 0 y) := by
    intro hw hh
    simp only [crop_by_bbox]
    rw [if_neg (by omega)]
    simp only [CropBox.wd, CropBox.ht]
    omega
  refine ⟨fun hx hy hw hh hxw hyh => ?_, hgen⟩
  have h1 : min w ((image.width : Int) - max 0 x) = w := by omega
  have h2 : min h ((image.height : Int) - max 0 y) = h := by omega
  have := hgen (by omega) (by omega)
  omega

/-- Witness for `c6_bbox_crop_dimensions` at a concrete input (both the
fully-inside case and the clipped case). -/
theorem c6_bbox_crop_dimensions_witness :
    ((crop_by_bbox ⟨100, 100⟩ 10 10 50 50).wd = 50 ∧
     (crop_by_bbox ⟨100, 100⟩ 10 10 50 50).ht = 50) ∧
    ((crop_by_bbox ⟨100, 100⟩ 95 95 50 50).wd = 5 ∧
     (crop_by_bbox ⟨100, 100⟩ 95 95 50 50).ht = 5) :=
  ⟨(c6_bbox_crop_dimensions ⟨100, 100⟩ 10 10 50 50).1 (by decide) (by decide)
      (by decide) (by decide) (by decide) (by decide),
   by
    have := (c6_bbox_crop_dimensions ⟨100, 100⟩ 95 95 50 50).2 (by decide) (by decide)
    simpa using this⟩

/-- Embedding of the point-pair extraction loop in `_crop_by_segmentation`
(image_processor.py:130-134): the flat COCO list `[x0, y0, x1, y1, ...]`
becomes `[(x0, y0), (x1, y1), ...]`; a trailing unpaired coordinate is
dropped (`if i + 1 < len(polygon)`). -/
def toPoints : List Int → List (Int × Int)
  | x :: y :: rest => (x, y) :: toPoints rest
  | _ => []

/-- Embedding of the mask-drawing loop in `_crop_by_segmentation`
(image_processor.py:126-137).  The mask starts all-unset; each polygon with
at least 3 extracted points is drawn into it (`draw.polygon(points,
fill=255)`), the drawn regions accumulating by union.  The rasterizer itself
is PIL's `ImageDraw.polygon` (external to this repository), so it is a
parameter `raster`: `raster points px py` tells whether drawing the polygon
`points` sets pixel `(px, py)`. -/
def maskSet (raster : List (Int × Int) → Int → Int → Bool)
    (segmentation : List (List Int)) (px py : Int) : Bool :=
  segmentation.any fun polygon =>
    let points := toPoints polygon
    if 3 ≤ points.length then raster points px py else false

/-- All pixel coordinates of a `W × H` raster, in raster-scan order. -/
def pixelList (W H : Nat) : List (Int × Int) :=
  (List.range W).flatMap fun px =>
    (List.range H).map fun py => (Int.ofNat px, Int.ofNat py)

/-- The set pixels of a `W × H` mask. -/
def setPixels (W H : Nat) (isSet : Int → Int → Bool) : List (Int × Int) :=
  (pixelList W H).filter fun p => isSet p.1 p.2

/-- Embedding of PIL's `Image.getbbox` on the drawn mask
(image_processor.py:140): the tight bounding box `(left, upper, right,
lower)` of the set pixels, with `right`/`lower` exclusive; `none` when no
pixel is set. -/
def getbbox (W H : Nat) (isSet : Int → Int → Bool) :
    Option (Int × Int × Int × Int) :=
  match ((setPixels W H isSet).map Prod.fst).min?,
        ((setPixels W H isSet).map Prod.snd).min?,
        ((setPixels W H isSet).map Prod.fst).max?,
        ((setPixels W H isSet).map Prod.snd).max? with
  | some l, some u, some r, some b => some (l, u, r + 1, b + 1)
  | _, _, _, _ => none

/-- Embedding of `ImageProcessor._crop_by_segmentation`
(image_processor.py:111-162), tracking the crop box of the result.  When the
mask is empty (`mask.getbbox()` is `None`) the source returns the fallback
crop `image.crop((0, 0, min(10, image.width), min(10, image.height)))`;
otherwise both image and mask are cropped to the mask's bounding box and the
masked composite keeps that canvas size. -/
def crop_by_segmentation (raster : List (Int × Int) → Int → Int → Bool)
    (image : PILImage) (segmentation : List (List Int)) : CropBox :=
  match getbbox image.width image.height (maskSet raster segmentation) with
  | none => ⟨0, 0, min 10 (image.width : Int), min 10 (image.height : Int)⟩
  | some (l, u, r, b) => ⟨l, u, r, b⟩

/-- Modelled from the spec: PIL's `ImageDraw.polygon` fill (external to this
repository) for a single axis-aligned rectangular polygon
`[(x0, y0), (x1, y0), (x1, y1), (x0, y1)]`, per §4.1 step 2 ("rasterize it
into the mask ... marking interior pixels set") and the §8 scenario (the
square `(10,10)–(60,60)` yields a 50×50 region): the pixels
`x0 ≤ px < x1`, `y0 ≤ py < y1` are set.  Non-rectangular inputs are not
needed by any claim and are left unset. -/
def specRasterize : List (Int × Int) → Int → Int → Bool
  | [(x0, y0), (x1, _), (_, y1), (_, _)], px, py =>
      decide (x0 ≤ px) && decide (px < x1) && decide (y0 ≤ py) && decide (py < y1)
  | _, _, _ => false

theorem maskSet_filter (raster : List (Int × Int) → Int → Int → Bool)
    (seg : List (List Int)) (px py : Int) :
    maskSet raster (seg.filter fun p => decide (3 ≤ (toPoints p).length)) px py
      = maskSet raster seg px py := by
  induction seg with
  | nil => rfl
  | cons p ps ih =>
    by_cases h : 3 ≤ (toPoints p).length
    · simp [maskSet, List.filter_cons, h] at ih ⊢
    · simp [maskSet, List.filter_cons, h] at ih ⊢

theorem setPixels_eq_nil {W H : Nat} {isSet : Int → Int → Bool}
    (h : ∀ px py, isSet px py = false) :
    setPixels W H isSet = [] := by
  simp [setPixels, List.filter_eq_nil_iff, h]

theorem maskSet_false_of_short (raster : List (Int × Int) → Int → Int → Bool)
    (seg : List (List Int)) (hshort : ∀ polygon ∈ seg, (toPoints polygon).length < 3)
    (px py : Int) : maskSet raster seg px py = false := by
  simp only [maskSet, List.any_eq_false]
  intro polygon hp
  simp [Nat.not_le.mpr (hshort polygon hp)]

theorem getbbox_eq_none {W H : Nat} {isSet : Int → Int → Bool}
    (h : ∀ px py, isSet px py = false) : getbbox W H isSet = none := by
  simp only [getbbox, setPixels_eq_nil h, List.map_nil, List.min?_nil, List.max?_nil]

/-- C2 counterexample: for the segmentation `[[0, 0, 5, 5]]` (a single
polygon with only 2 coordinate pairs, so every polygon is degenerate) on a
20×20 image, extraction does not fail with `NoGeometry`: the source returns
the fallback crop `(0, 0, 10, 10)`. -/
theorem c2_counterexample :
    crop_by_segmentation specRasterize ⟨20, 20⟩ [[0, 0, 5, 5]] = ⟨0, 0, 10, 10⟩ := by
  decide

/-- C2 (amended): polygons with fewer than 3 extracted coordinate pairs
contribute nothing to the mask (the mask built from all polygons equals the
one built from the length-≥3 polygons alone); and when every polygon is
degenerate the mask stays empty and `_crop_by_segmentation` returns the
fallback crop `(0, 0, min(10, width), min(10, height))` instead of failing
with `NoGeometry`. -/
theorem c2_degenerate_polygons (raster : List (Int × Int) → Int → Int → Bool)
    (image : PILImage) (seg : List (List Int)) :
    (∀ px py, maskSet raster (seg.filter fun p => decide (3 ≤ (toPoints p).length)) px py
        = maskSet raster seg px py) ∧
    ((∀ polygon ∈ seg, (toPoints polygon).length < 3) →
      crop_by_segmentation raster image seg =
        ⟨0, 0, min 10 (image.width : Int), min 10 (image.height : Int)⟩) := by
  refine ⟨fun px py => maskSet_filter raster seg px py, fun hshort => ?_⟩
  unfold crop_by_segmentation
  rw [getbbox_eq_none (maskSet_false_of_short raster seg hshort)]

/-- Witness for `c2_degenerate_polygons` at a concrete input. -/
theorem c2_degenerate_polygons_witness :
    crop_by_segmentation specRasterize ⟨30, 30⟩ [[1, 2, 3, 4], [5, 6]] = ⟨0, 0, 10, 10⟩ :=
  (c2_degenerate_polygons specRasterize ⟨30, 30⟩ [[1, 2, 3, 4], [5, 6]]).2 (by decide)

theorem mem_pixelList {W H : Nat} {a b : Int} :
    (a, b) ∈ pixelList W H ↔ 0 ≤ a ∧ a < (W : Int) ∧ 0 ≤ b ∧ b < (H : Int) := by
  constructor
  · intro h
    obtain ⟨px, hpx, hmem⟩ := List.mem_flatMap.mp h
    obtain ⟨py, hpy, heq⟩ := List.mem_map.mp hmem
    injection heq with h1 h2
    rw [List.mem_range] at hpx hpy
    simp only [Int.ofNat_eq_natCast] at h1 h2
    omega
  · rintro ⟨ha0, haW, hb0, hbH⟩
    refine List.mem_flatMap.mpr ⟨a.toNat, List.mem_range.mpr (by omega), ?_⟩
    refine List.mem_map.mpr ⟨b.toNat, List.mem_range.mpr (by omega), ?_⟩
    rw [Prod.mk.injEq]
    simp only [Int.ofNat_eq_natCast]
    omega

theorem mem_setPixels {W H : Nat} {isSet : Int → Int → Bool} {a b : Int} :
    (a, b) ∈ setPixels W H isSet ↔
      0 ≤ a ∧ a < (W : Int) ∧ 0 ≤ b ∧ b < (H : Int) ∧ isSet a b = true := by
  rw [setPixels, List.mem_filter, mem_pixelList]
  tauto

theorem intList_min?_eq_some {l : List Int} {a : Int} (hmem : a ∈ l)
    (hlb : ∀ b ∈ l, a ≤ b) : l.min? = some a := by
  haveI : Std.Antisymm ((· : Int) ≤ ·) := ⟨fun h1 h2 => le_antisymm h1 h2⟩
  rw [List.min?_eq_some_iff (fun a => le_refl a) (fun a b => min_choice a b)
    (fun a b c => le_min_iff)]
  exact ⟨hmem, hlb⟩

theorem intList_max?_eq_some {l : List Int} {a : Int} (hmem : a ∈ l)
    (hub : ∀ b ∈ l, b ≤ a) : l.max? = some a := by
  haveI : Std.Antisymm ((· : Int) ≤ ·) := ⟨fun h1 h2 => le_antisymm h1 h2⟩
  rw [List.max?_eq_some_iff (fun a => le_refl a) (fun a b => max_choice a b)
    (fun a b c => max_le_iff)]
  exact ⟨hmem, hub⟩

/-- C8: for a single axis-aligned rectangular polygon
`[x0, y0, x1, y0, x1, y1, x0, y1]` lying inside the image, the extracted
region's crop box equals the polygon's own bounding box `(x0, y0, x1, y1)`,
and the result's canvas size is `(x1 - x0, y1 - y0)` — the bounding box, not
the full image. -/
theorem c8_rect_polygon_roundtrip (W H : Nat) (x0 y0 x1 y1 : Int)
    (h0x : 0 ≤ x0) (hx : x0 < x1) (hxW : x1 ≤ (W : Int))
    (h0y : 0 ≤ y0) (hy : y0 < y1) (hyH : y1 ≤ (H : Int)) :
    crop_by_segmentation specRasterize ⟨W, H⟩ [[x0, y0, x1, y0, x1, y1, x0, y1]]
      = ⟨x0, y0, x1, y1⟩ ∧
    (crop_by_segmentation specRasterize ⟨W, H⟩ [[x0, y0, x1, y0, x1, y1, x0, y1]]).wd
      = x1 - x0 ∧
    (crop_by_segmentation specRasterize ⟨W, H⟩ [[x0, y0, x1, y0, x1, y1, x0, y1]]).ht
      = y1 - y0 := by
  have hmask : ∀ px py : Int,
      maskSet specRasterize [[x0, y0, x1, y0, x1, y1, x0, y1]] px py
        = (decide (x0 ≤ px) && decide (px < x1) && decide (y0 ≤ py) &&
           decide (py < y1)) := by
    intro px py
    simp [maskSet, toPoints, specRasterize]
  have hmem : ∀ a b : Int,
      (a, b) ∈ setPixels W H (maskSet specRasterize [[x0, y0, x1, y0, x1, y1, x0, y1]])
        ↔ (x0 ≤ a ∧ a < x1 ∧ y0 ≤ b ∧ b < y1) := by
    intro a b
    rw [mem_setPixels, hmask]
    simp only [Bool.and_eq_true, decide_eq_true_eq]
    omega
  have hminx : ((setPixels W H (maskSet specRasterize
      [[x0, y0, x1, y0, x1, y1, x0, y1]])).map Prod.fst).min? = some x0 := by
    apply intList_min?_eq_some
    · exact List.mem_map.mpr ⟨(x0, y0), (hmem x0 y0).mpr ⟨le_refl _, hx, le_refl _, hy⟩, rfl⟩
    · intro v hv
      obtain ⟨p, hp, rfl⟩ := List.mem_map.mp hv
      exact ((hmem p.1 p.2).mp (by rwa [Prod.mk.eta])).1
  have hminy : ((setPixels W H (maskSet specRasterize
      [[x0, y0, x1, y0, x1, y1, x0, y1]])).map Prod.snd).min? = some y0 := by
    apply intList_min?_eq_some
    · exact List.mem_map.mpr ⟨(x0, y0), (hmem x0 y0).mpr ⟨le_refl _, hx, le_refl _, hy⟩, rfl⟩
    · intro v hv
      obtain ⟨p, hp, rfl⟩ := List.mem_map.mp hv
      exact ((hmem p.1 p.2).mp (by rwa [Prod.mk.eta])).2.2.1
  have hmaxx : ((setPixels W H (maskSet specRasterize
      [[x0, y0, x1, y0, x1, y1, x0, y1]])).map Prod.fst).max? = some (x1 - 1) := by
    apply intList_max?_eq_some
    · exact List.mem_map.mpr
        ⟨(x1 - 1, y0), (hmem (x1 - 1) y0).mpr ⟨by omega, by omega, le_refl _, hy⟩, rfl⟩
    · intro v hv
      obtain ⟨p, hp, rfl⟩ := List.mem_map.mp hv
      have := ((hmem p.1 p.2).mp (by rwa [Prod.mk.eta])).2.1
      omega
  have hmaxy : ((setPixels W H (maskSet specRasterize
      [[x0, y0, x1, y0, x1, y1, x0, y1]])).map Prod.snd).max? = some (y1 - 1) := by
    apply intList_max?_eq_some
    · exact List.mem_map.mpr
        ⟨(x0, y1 - 1), (hmem x0 (y1 - 1)).mpr ⟨le_refl _, hx, by omega, by omega⟩, rfl⟩
    · intro v hv
      obtain ⟨p, hp, rfl⟩ := List.mem_map.mp hv
      have := ((hmem p.1 p.2).mp (by rwa [Prod.mk.eta])).2.2.2
      omega
  have hbb : getbbox W H (maskSet specRasterize [[x0, y0, x1, y0, x1, y1, x0, y1]])
      = some (x0, y0, x1, y1) := by
    unfold getbbox
    rw [hminx, hminy, hmaxx, hmaxy]
    have e1 : x1 - 1 + 1 = x1 := by omega
    have e2 : y1 - 1 + 1 = y1 := by omega
    simp [e1, e2]
  have hmain : crop_by_segmentation specRasterize ⟨W, H⟩
      [[x0, y0, x1, y0, x1, y1, x0, y1]] = ⟨x0, y0, x1, y1⟩ := by
    unfold crop_by_segmentation
    simp only [hbb]
  exact ⟨hmain, by rw [hmain]; rfl, by rw [hmain]; rfl⟩

/-- Witness for `c8_rect_polygon_roundtrip`: the spec's §8 scenario, the
square `(10,10)–(60,60)` on a 100×100 image. -/
theorem c8_rect_polygon_roundtrip_witness :
    crop_by_segmentation specRasterize ⟨100, 100⟩ [[10, 10, 60, 10, 60, 60, 10, 60]]
      = ⟨10, 10, 60, 60⟩ :=
  (c8_rect_polygon_roundtrip 100 100 10 10 60 60 (by decide) (by decide) (by decide)
    (by decide) (by decide) (by decide)).1

/-- Python truthiness of an optional list: `None` and the empty list are
falsy (`bbox and ...`, `segmentation and ...` in `crop_object`). -/
def pyTruthy {α : Type} : Option (List α) → Bool
  | none => false
  | some l => !l.isEmpty

/-- Embedding of `ImageProcessor.crop_object` (image_processor.py:54-83).
The loaded image is the `image` argument (`load_image`'s result; `none`
models an unloadable image).  The segmentation path is taken when
`use_segmentation` is on and the segmentation is truthy with positive
length; otherwise the bounding box is used only when truthy with exactly 4
entries (`elif bbox and len(bbox) == 4`); otherwise the crop fails
(`return None`). -/
def crop_object (raster : List (Int × Int) → Int → Int → Bool) (useSeg : Bool)
    (image : Option PILImage) (bbox : Option (List Int))
    (segmentation : Option (List (List Int))) : Option CropBox :=
  match image with
  | none => none
  | some img =>
    if useSeg && pyTruthy segmentation
        && decide (0 < (segmentation.getD []).length) then
      some (crop_by_segmentation raster img (segmentation.getD []))
    else
      match bbox with
      | some [x, y, w, h] => some (crop_by_bbox img x y w h)
      | _ => none

/-- Embedding of `EmbeddingGenerator.generate_embeddings`
(embedding_generator.py:75-116).  The external Jina call is modelled by its
outcome `embedResult`: a vector list on success, an error value when it
raises.  On empty input the source returns `[]` before calling the API; on
an API error it returns one zero-filled vector of length `vector_size` per
input image (`[[0.0] * self.vector_size for _ in range(len(images))]`).
Vector entries are modelled as `Int` (`0` standing for `0.0`); the dimension
check at lines 107-109 only prints a warning and does not change the result. -/
def generate_embeddings {α : Type} (vector_size : Nat)
    (embedResult : Except String (List (List Int))) (images : List α) :
    List (List Int) :=
  if images.isEmpty then []
  else
    match embedResult with
    | .ok results => results
    | .error _ => images.map fun _ => List.replicate vector_size 0

/-- A COCO annotation as `main.py` consumes it: `id`, `image_id`,
`category_id`, and the optional fields read with `.get(...)`. -/
structure Ann where
  id : Nat
  image_id : Nat
  category_id : Nat
  bbox : Option (List Int)
  segmentation : Option (List (List Int))
  area : Option Int
  iscrowd : Option Nat
deriving Repr, DecidableEq

/-- An entry of `coco_data['images']` as used by `main.py`. -/
structure ImageInfo where
  id : Nat
  file_name : String
deriving Repr, DecidableEq

/-- An entry of `coco_data['categories']` as used by `main.py`. -/
structure Category where
  id : Nat
  name : String
deriving Repr, DecidableEq

/-- Embedding of the per-batch dict comprehension
`image_data = {img['id']: img for img in coco_data['images'] if img['id'] in image_ids}`
(main.py:153-156): the filtered entry list.  Note it is rebuilt inside the
batch loop for every batch. -/
def buildImageData (images : List ImageInfo) (image_ids : List Nat) :
    List ImageInfo :=
  images.filter fun img => image_ids.contains img.id

/-- Lookup in the dict built by `buildImageData`: for duplicate ids a Python
dict comprehension keeps the last occurrence; `none` models a `KeyError`
raised by `image_data[ann['image_id']]` (main.py:161). -/
def dictLookup (entries : List ImageInfo) (iid : Nat) : Option ImageInfo :=
  entries.foldl (fun acc img => if img.id = iid then some img else acc) none

/-- One element of the `cropped_objects` list built by the batch loop
(main.py:174-180): the cropped raster together with the joined records. -/
structure CroppedObject where
  image : CropBox
  ann : Ann
  image_info : ImageInfo
  category : Category
deriving Repr, DecidableEq

/-- The unhandled exceptions the join stage of `main` can raise: `KeyError`
from `image_data[ann['image_id']]` and `StopIteration` from
`next(cat for cat in ... )` (main.py:161-165). -/
inductive JoinErr where
  | keyError (image_id : Nat)
  | stopIteration (category_id : Nat)
deriving Repr, DecidableEq

/-- Embedding of the body of the per-batch loop
`for ann in batch_annotations:` (main.py:160-180) over a prebuilt
`image_data`: resolve the image record (raising `KeyError` on a miss),
resolve the category by `next(...)` over the category list (raising
`StopIteration` on a miss), crop, and keep the survivors in input order.
A raised exception aborts the whole loop, discarding earlier results. -/
def cropBatchGo (loadImage : String → Option PILImage)
    (raster : List (Int × Int) → Int → Int → Bool) (useSeg : Bool)
    (image_data : List ImageInfo) (categories : List Category) :
    List Ann → Except JoinErr (List CroppedObject)
  | [] => .ok []
  | a :: rest =>
    match dictLookup image_data a.image_id with
    | none => .error (.keyError a.image_id)
    | some info =>
      match categories.find? (fun c => c.id = a.category_id) with
      | none => .error (.stopIteration a.category_id)
      | some cat =>
        match crop_object raster useSeg (loadImage info.file_name)
            a.bbox a.segmentation with
        | none => cropBatchGo loadImage raster useSeg image_data categories rest
        | some region =>
          match cropBatchGo loadImage raster useSeg image_data categories rest with
          | .error e => .error e
          | .ok objs => .ok (⟨region, a, info, cat⟩ :: objs)

/-- Embedding of one batch of the join/crop stage of `main`
(main.py:149-180): build `image_data` from the batch's image ids, then run
the per-annotation loop. -/
def cropBatch (loadImage : String → Option PILImage)
    (raster : List (Int × Int) → Int → Int → Bool) (useSeg : Bool)
    (images : List ImageInfo) (categories : List Category)
    (batch : List Ann) : Except JoinErr (List CroppedObject) :=
  cropBatchGo loadImage raster useSeg
    (buildImageData images (batch.map fun a => a.image_id)) categories batch

/-- The payload of a stored record (main.py:193-202). -/
structure Payload where
  image_id : Nat
  file_name : String
  category_id : Nat
  category_name : String
  bbox : Option (List Int)
  segmentation : Option (List (List Int))
  area : Option Int
  iscrowd : Nat
deriving Repr, DecidableEq

/-- One element of `upload_objects` (main.py:190-203), with the vector type
`V` abstract. -/
structure UploadObject (V : Type) where
  id : Nat
  vector : V
  payload : Payload
deriving Repr, DecidableEq

/-- The payload `main` builds for one cropped object (main.py:193-202):
it mirrors the image id and file name, the category id and name, the
annotation's geometry (`bbox`, `segmentation`), `area`, and the crowd flag
(`.get('iscrowd', 0)`). -/
def mkPayload (obj : CroppedObject) : Payload :=
  ⟨obj.image_info.id, obj.image_info.file_name, obj.category.id,
   obj.category.name, obj.ann.bbox, obj.ann.segmentation, obj.ann.area,
   obj.ann.iscrowd.getD 0⟩

/-- The `IndexError` raised by `embeddings[i]` when the vector list is
shorter than `cropped_objects` (main.py:189-192). -/
inductive BatchErr where
  | indexError
deriving Repr, DecidableEq

/-- Embedding of the upload-object loop
`for i, obj in enumerate(cropped_objects): ... 'vector': embeddings[i] ...`
(main.py:188-203): walk the cropped objects positionally against the
embedding list; when the embeddings run out first, `embeddings[i]` raises
`IndexError` and the partial list is discarded; extra embeddings are
silently ignored. -/
def buildUploadObjects {V : Type} :
    List CroppedObject → List V → Except BatchErr (List (UploadObject V))
  | [], _ => .ok []
  | _ :: _, [] => .error .indexError
  | obj :: objs, v :: vs =>
    match buildUploadObjects objs vs with
    | .error e => .error e
    | .ok rest => .ok (⟨obj.ann.id, v, mkPayload obj⟩ :: rest)

/-- The run-level batch loop of `main` restricted to its join/crop stage
(main.py:147-180): batches are processed sequentially and an exception in
any batch propagates out of the loop. -/
def runJoinAll (loadImage : String → Option PILImage)
    (raster : List (Int × Int) → Int → Int → Bool) (useSeg : Bool)
    (images : List ImageInfo) (categories : List Category) :
    List (List Ann) → Except JoinErr (List (List CroppedObject))
  | [] => .ok []
  | batch :: rest =>
    match cropBatch loadImage raster useSeg images categories batch with
    | .error e => .error e
    | .ok objs =>
      match runJoinAll loadImage raster useSeg images categories rest with
      | .error e => .error e
      | .ok rests => .ok (objs :: rests)

/-- The exit code of `main` as far as the join/crop stage decides it: the
top-level `except` handler (main.py:215-219) turns any propagated exception
into `return 1`; otherwise the run continues and exits 0. -/
def mainExitCode (loadImage : String → Option PILImage)
    (raster : List (Int × Int) → Int → Int → Bool) (useSeg : Bool)
    (images : List ImageInfo) (categories : List Category)
    (batches : List (List Ann)) : Nat :=
  match runJoinAll loadImage raster useSeg images categories batches with
  | .ok _ => 0
  | .error _ => 1

/-- Comparison-counting instrumentation of the category lookup
`next(cat for cat in coco_data['categories'] if cat['id'] == ann['category_id'])`
(main.py:162-165): the lookup result together with the number of
`cat['id'] ==` comparisons the generator performs before stopping. -/
def categoryScan (categories : List Category) (cid : Nat) :
    Option Category × Nat :=
  match categories with
  | [] => (none, 0)
  | c :: rest =>
    if c.id = cid then (some c, 1)
    else
      let r := categoryScan rest cid
      (r.1, r.2 + 1)

/-- Total category-lookup comparisons performed by the join stage of one
batch: the scan is re-run from scratch for every annotation
(main.py:160-165). -/
def batchCategoryScanSteps (categories : List Category)
    (batch : List Ann) : Nat :=
  (batch.map fun a => (categoryScan categories a.category_id).2).sum

/-- The instrumented scan computes the same lookup `cropBatchGo` uses. -/
theorem categoryScan_fst (categories : List Category) (cid : Nat) :
    (categoryScan categories cid).1
      = categories.find? (fun c => c.id = cid) := by
  induction categories with
  | nil => rfl
  | cons c rest ih =>
    by_cases h : c.id = cid
    · simp [categoryScan, List.find?, h]
    · simp [categoryScan, List.find?, h, ih]

/-- C10: when the segmentation path is not taken, `crop_object` uses the
bounding box only when it is non-null with exactly 4 entries; `None` or a
list of any other length is treated as absent geometry FAILURE, so
`crop_object` returns `None` even though the image loaded successfully. -/
theorem c10_bbox_length_gate (raster : List (Int × Int) → Int → Int → Bool)
    (useSeg : Bool) (img : PILImage) (bbox : Option (List Int))
    (seg : Option (List (List Int)))
    (hseg : ¬(useSeg = true ∧ pyTruthy seg = true)) :
    (bbox = none → crop_object raster useSeg (some img) bbox seg = none) ∧
    (∀ l, bbox = some l → l.length ≠ 4 →
      crop_object raster useSeg (some img) bbox seg = none) ∧
    (∀ l, bbox = some l → l.length = 4 →
      (crop_object raster useSeg (some img) bbox seg).isSome = true) := by
  have hguard : (useSeg && pyTruthy seg
      && decide (0 < (seg.getD []).length)) = false := by
    cases h1 : useSeg <;> cases h2 : pyTruthy seg <;> simp_all
  refine ⟨?_, ?_, ?_⟩
  · rintro rfl
    simp [crop_object, hguard]
  · rintro l rfl hne
    simp only [crop_object, hguard, Bool.false_eq_true, if_false]
    rcases l with _ | ⟨a, _ | ⟨b, _ | ⟨c, _ | ⟨d, _ | ⟨e, rest⟩⟩⟩⟩⟩ <;> simp_all
  · rintro l rfl hlen
    simp only [crop_object, hguard, Bool.false_eq_true, if_false]
    rcases l with _ | ⟨a, _ | ⟨b, _ | ⟨c, _ | ⟨d, _ | ⟨e, rest⟩⟩⟩⟩⟩ <;> simp_all

/-- Witness for `c10_bbox_length_gate`: a 3-entry bbox yields `None` even
though the image loaded; a 4-entry bbox yields a crop. -/
theorem c10_bbox_length_gate_witness :
    crop_object specRasterize false (some ⟨100, 100⟩) (some [1, 2, 3]) none
      = none ∧
    (crop_object specRasterize false (some ⟨100, 100⟩)
      (some [10, 10, 50, 50]) none).isSome = true :=
  ⟨(c10_bbox_length_gate specRasterize false ⟨100, 100⟩ (some [1, 2, 3]) none
      (by simp)).2.1 [1, 2, 3] rfl (by decide),
   (c10_bbox_length_gate specRasterize false ⟨100, 100⟩ (some [10, 10, 50, 50])
      none (by simp)).2.2 [10, 10, 50, 50] rfl (by decide)⟩

/-- C4: when the embedding call raises, `generate_embeddings` substitutes
one zero-filled vector of the configured size per input image instead of
aborting the batch. -/
theorem c4_zero_vector_on_error {α : Type} (vector_size : Nat) (e : String)
    (images : List α) (hne : images ≠ []) :
    generate_embeddings vector_size (.error e) images
      = List.replicate images.length (List.replicate vector_size 0) := by
  have hE : images.isEmpty = false := by
    cases images with
    | nil => exact absurd rfl hne
    | cons a l => rfl
  simp [generate_embeddings, hE, List.map_const']

/-- Witness for `c4_zero_vector_on_error` at a concrete input. -/
theorem c4_zero_vector_on_error_witness :
    generate_embeddings 3 (.error "boom") [10, 20] = [[0, 0, 0], [0, 0, 0]] := by
  rw [c4_zero_vector_on_error 3 "boom" [10, 20] (by decide)]
  decide

theorem buildUploadObjects_short {V : Type} (cropped : List CroppedObject)
    (embs : List V) (h : embs.length < cropped.length) :
    buildUploadObjects cropped embs = .error .indexError := by
  induction cropped generalizing embs with
  | nil => simp at h
  | cons obj objs ih =>
    cases embs with
    | nil => rfl
    | cons v vs =>
      have h2 : vs.length < objs.length := by simpa using h
      simp [buildUploadObjects, ih vs h2]

theorem buildUploadObjects_ok {V : Type} (cropped : List CroppedObject)
    (embs : List V) (h : cropped.length ≤ embs.length) :
    buildUploadObjects cropped embs
      = .ok (List.zipWith (fun o v => UploadObject.mk o.ann.id v (mkPayload o))
          cropped embs) := by
  induction cropped generalizing embs with
  | nil => rfl
  | cons obj objs ih =>
    cases embs with
    | nil => simp at h
    | cons v vs =>
      have h2 : objs.length ≤ vs.length := by simpa using h
      simp [buildUploadObjects, ih vs h2]

/-- Concrete fixture: an image loader that always yields a 100×100 image. -/
def exLoad : String → Option PILImage := fun _ => some ⟨100, 100⟩

/-- Concrete fixture: an annotation with a valid 4-entry bbox. -/
def exAnn : Ann := ⟨1, 7, 3, some [10, 10, 50, 50], none, some 2500, some 0⟩

/-- Concrete fixture: the image record `exAnn` references. -/
def exImgInfo : ImageInfo := ⟨7, "img7.jpg"⟩

/-- Concrete fixture: the category record `exAnn` references. -/
def exCat : Category := ⟨3, "cat"⟩

/-- Concrete fixture: the cropped object the batch stage builds for
`exAnn`. -/
def exCropped : CroppedObject := ⟨⟨10, 10, 60, 60⟩, exAnn, exImgInfo, exCat⟩

/-- C3 counterexample: an embedding list one element longer than the
cropped-object list is not detected as a mismatch: the batch is not failed;
the pipeline silently zips the first vector on and drops the extra one. -/
theorem c3_counterexample :
    buildUploadObjects [exCropped] [100, 200]
      = .ok [⟨1, 100, mkPayload exCropped⟩] := rfl

/-- C3 (amended): `main` performs no length check when zipping embeddings
onto cropped objects: if the embedding list is shorter, `embeddings[i]`
raises `IndexError` (discarding the batch's partial result and propagating
to the run-level handler); if it is longer or equal, the batch proceeds,
zipping positionally and silently ignoring any extra vectors. -/
theorem c3_no_length_check {V : Type} (cropped : List CroppedObject)
    (embs : List V) :
    (embs.length < cropped.length →
      buildUploadObjects cropped embs = .error .indexError) ∧
    (cropped.length ≤ embs.length →
      buildUploadObjects cropped embs
        = .ok (List.zipWith (fun o v => UploadObject.mk o.ann.id v (mkPayload o))
            cropped embs)) :=
  ⟨buildUploadObjects_short cropped embs, buildUploadObjects_ok cropped embs⟩

/-- Witness for `c3_no_length_check` at a concrete input (shorter case). -/
theorem c3_no_length_check_witness :
    buildUploadObjects [exCropped] ([] : List Nat) = .error .indexError :=
  (c3_no_length_check [exCropped] ([] : List Nat)).1 (by decide)

/-- C5 counterexample: with an empty category table (a category-id lookup
miss) the join stage does not report-and-skip the annotation: it raises
`StopIteration`, and the run aborts with exit code 1. -/
theorem c5_counterexample :
    cropBatch exLoad specRasterize false [exImgInfo] [] [exAnn]
      = .error (.stopIteration 3) ∧
    mainExitCode exLoad specRasterize false [exImgInfo] [] [[exAnn]] = 1 := by
  constructor <;> rfl

/-- C5 (amended): a lookup miss is not skipped: an `image_id` miss raises
`KeyError`, a `category_id` miss raises `StopIteration`, and an error in any
batch propagates out of the batch loop to the top-level handler, which
aborts the run with exit code 1. -/
theorem c5_lookup_miss_raises (loadImage : String → Option PILImage)
    (raster : List (Int × Int) → Int → Int → Bool) (useSeg : Bool)
    (images : List ImageInfo) (categories : List Category)
    (a : Ann) (rest : List Ann) :
    (dictLookup (buildImageData images ((a :: rest).map fun x => x.image_id))
        a.image_id = none →
      cropBatch loadImage raster useSeg images categories (a :: rest)
        = .error (.keyError a.image_id)) ∧
    (∀ info,
      dictLookup (buildImageData images ((a :: rest).map fun x => x.image_id))
        a.image_id = some info →
      categories.find? (fun c => c.id = a.category_id) = none →
      cropBatch loadImage raster useSeg images categories (a :: rest)
        = .error (.stopIteration a.category_id)) ∧
    (∀ batches : List (List Ann),
      (∃ batch ∈ batches, ∃ e,
        cropBatch loadImage raster useSeg images categories batch = .error e) →
      mainExitCode loadImage raster useSeg images categories batches = 1) := by
  refine ⟨fun hk => ?_, fun info hi hc => ?_, fun batches => ?_⟩
  · rw [List.map_cons] at hk
    simp [cropBatch, cropBatchGo, hk]
  · rw [List.map_cons] at hi
    simp [cropBatch, cropBatchGo, hi, hc]
  · induction batches with
    | nil =>
      rintro ⟨b, hb, _⟩
      simp at hb
    | cons b bs ih =>
      rintro ⟨batch, hbatch, e, he⟩
      rcases List.mem_cons.mp hbatch with rfl | hmem
      · simp [mainExitCode, runJoinAll, he]
      · cases hcb : cropBatch loadImage raster useSeg images categories b with
        | error e2 => simp [mainExitCode, runJoinAll, hcb]
        | ok objs =>
          have h1 := ih ⟨batch, hmem, e, he⟩
          simp only [mainExitCode, runJoinAll, hcb] at h1 ⊢
          cases hr : runJoinAll loadImage raster useSeg images categories bs with
          | error e3 => simp [hr]
          | ok l => simp [hr] at h1

/-- Witness for `c5_lookup_miss_raises` at a concrete input (image-id miss). -/
theorem c5_lookup_miss_raises_witness :
    cropBatch exLoad specRasterize false [] [exCat] [exAnn]
      = .error (.keyError 7) :=
  (c5_lookup_miss_raises exLoad specRasterize false [] [exCat] exAnn []).1
    (by decide)

/-- Specification predicate: an annotation survives the batch stage when its
image and category records resolve and its crop succeeds. -/
def annSurvives (loadImage : String → Option PILImage)
    (raster : List (Int × Int) → Int → Int → Bool) (useSeg : Bool)
    (image_data : List ImageInfo) (categories : List Category)
    (a : Ann) : Bool :=
  match dictLookup image_data a.image_id,
        categories.find? (fun c => c.id = a.category_id) with
  | some info, some _ =>
    (crop_object raster useSeg (loadImage info.file_name)
      a.bbox a.segmentation).isSome
  | _, _ => false

theorem cropBatchGo_anns (loadImage : String → Option PILImage)
    (raster : List (Int × Int) → Int → Int → Bool) (useSeg : Bool)
    (image_data : List ImageInfo) (categories : List Category) :
    ∀ (batch : List Ann) (objs : List CroppedObject),
      cropBatchGo loadImage raster useSeg image_data categories batch = .ok objs →
      objs.map (fun o => o.ann)
        = batch.filter (annSurvives loadImage raster useSeg image_data categories) := by
  intro batch
  induction batch with
  | nil =>
    intro objs h
    simp only [cropBatchGo] at h
    cases h
    rfl
  | cons a rest ih =>
    intro objs h
    simp only [cropBatchGo] at h
    cases hd : dictLookup image_data a.image_id with
    | none => simp [hd] at h
    | some info =>
      simp only [hd] at h
      cases hc : categories.find? (fun c => c.id = a.category_id) with
      | none => simp [hc] at h
      | some cat =>
        simp only [hc] at h
        cases hcr : crop_object raster useSeg (loadImage info.file_name)
            a.bbox a.segmentation with
        | none =>
          simp only [hcr] at h
          have h2 := ih objs h
          simp [List.filter_cons, annSurvives, hd, hc, hcr, h2]
        | some region =>
          simp only [hcr] at h
          cases hrec : cropBatchGo loadImage raster useSeg image_data categories
              rest with
          | error e => simp [hrec] at h
          | ok objs2 =>
            simp only [hrec, Except.ok.injEq] at h
            subst h
            simp [List.filter_cons, annSurvives, hd, hc, hcr, ih objs2 hrec]

/-- C7: within a batch, the surviving cropped objects keep the relative
order of the input annotations (they are exactly the order-preserving filter
of the batch by survival); the upload loop zips the `i`-th embedding onto
the `i`-th surviving object with no reordering or deduplication; each upload
record's `id` is the annotation's `id` and its payload mirrors the image
id and file name, category id and name, geometry, area, and crowd flag. -/
theorem c7_positional_correspondence {V : Type}
    (loadImage : String → Option PILImage)
    (raster : List (Int × Int) → Int → Int → Bool) (useSeg : Bool)
    (images : List ImageInfo) (categories : List Category)
    (batch : List Ann) (objs : List CroppedObject)
    (hok : cropBatch loadImage raster useSeg images categories batch = .ok objs)
    (embs : List V) (hlen : embs.length = objs.length) :
    objs.map (fun o => o.ann)
      = batch.filter (annSurvives loadImage raster useSeg
          (buildImageData images (batch.map fun x => x.image_id)) categories) ∧
    buildUploadObjects objs embs
      = .ok (List.zipWith (fun o v => UploadObject.mk o.ann.id v (mkPayload o))
          objs embs) ∧
    ∀ ups, buildUploadObjects objs embs = .ok ups →
      ups.length = objs.length ∧
      ∀ i (hi : i < ups.length) (ho : i < objs.length) (he : i < embs.length),
        (ups.get ⟨i, hi⟩).id = (objs.get ⟨i, ho⟩).ann.id ∧
        (ups.get ⟨i, hi⟩).vector = embs.get ⟨i, he⟩ ∧
        (ups.get ⟨i, hi⟩).payload.image_id = (objs.get ⟨i, ho⟩).image_info.id ∧
        (ups.get ⟨i, hi⟩).payload.file_name
          = (objs.get ⟨i, ho⟩).image_info.file_name ∧
        (ups.get ⟨i, hi⟩).payload.category_id = (objs.get ⟨i, ho⟩).category.id ∧
        (ups.get ⟨i, hi⟩).payload.category_name
          = (objs.get ⟨i, ho⟩).category.name ∧
        (ups.get ⟨i, hi⟩).payload.bbox = (objs.get ⟨i, ho⟩).ann.bbox ∧
        (ups.get ⟨i, hi⟩).payload.segmentation
          = (objs.get ⟨i, ho⟩).ann.segmentation ∧
        (ups.get ⟨i, hi⟩).payload.area = (objs.get ⟨i, ho⟩).ann.area ∧
        (ups.get ⟨i, hi⟩).payload.iscrowd
          = (objs.get ⟨i, ho⟩).ann.iscrowd.getD 0 := by
  refine ⟨cropBatchGo_anns loadImage raster useSeg _ categories batch objs hok,
    ?_, ?_⟩
  · exact buildUploadObjects_ok objs embs (by omega)
  · intro ups hups
    rw [buildUploadObjects_ok objs embs (by omega), Except.ok.injEq] at hups
    subst hups
    constructor
    · simp [List.length_zipWith]
      omega
    · intro i hi ho he
      simp [List.get_eq_getElem, List.getElem_zipWith, mkPayload]

/-- Witness for `c7_positional_correspondence` at a concrete one-annotation
batch. -/
theorem c7_positional_correspondence_witness :
    [exCropped].map (fun o => o.ann)
      = [exAnn].filter (annSurvives exLoad specRasterize false
          (buildImageData [exImgInfo] ([exAnn].map fun x => x.image_id))
          [exCat]) :=
  (c7_positional_correspondence exLoad specRasterize false [exImgInfo] [exCat]
    [exAnn] [exCropped] rfl ([[5]] : List (List Nat)) rfl).1

/-- C9 counterexample: the category lookup's comparison count equals the
matching category's position in the table — 5 comparisons in a 5-entry
table, 10 in a 10-entry table — and is incurred afresh for every annotation
(3 annotations × 5 comparisons = 15), refuting O(1) lookups against a table
indexed once before the batch loop. -/
theorem c9_counterexample :
    (categoryScan [⟨0, "a"⟩, ⟨1, "b"⟩, ⟨2, "c"⟩, ⟨3, "d"⟩, ⟨4, "e"⟩] 4).2
      = 5 ∧
    (categoryScan [⟨0, "a"⟩, ⟨1, "b"⟩, ⟨2, "c"⟩, ⟨3, "d"⟩, ⟨4, "e"⟩, ⟨5, "f"⟩,
        ⟨6, "g"⟩, ⟨7, "h"⟩, ⟨8, "i"⟩, ⟨9, "j"⟩] 9).2 = 10 ∧
    batchCategoryScanSteps [⟨0, "a"⟩, ⟨1, "b"⟩, ⟨2, "c"⟩, ⟨3, "d"⟩, ⟨4, "e"⟩]
      (List.replicate 3 ⟨1, 7, 4, none, none, none, none⟩) = 15 := by
  decide

/-- C9 (amended): category resolution in `main` is a linear scan of the
category list repeated per annotation: when the matching category sits at
the end of the table the scan performs `length + 1` comparisons, and a batch
of `n` annotations repeats the full scan `n` times — the cost grows with the
table, it is not an O(1) lookup against an id-indexed table built once
before the batch loop. -/
theorem c9_category_lookup_linear_scan :
    (∀ (cats : List Category) (cid : Nat) (nm : String),
      (∀ c ∈ cats, c.id ≠ cid) →
      (categoryScan (cats ++ [⟨cid, nm⟩]) cid).2 = cats.length + 1) ∧
    (∀ (cats : List Category) (a : Ann) (n : Nat),
      batchCategoryScanSteps cats (List.replicate n a)
        = n * (categoryScan cats a.category_id).2) := by
  constructor
  · intro cats cid nm hmiss
    induction cats with
    | nil => simp [categoryScan]
    | cons c rest ih =>
      have hc : c.id ≠ cid := hmiss c (by simp)
      have ih2 := ih fun c2 h2 => hmiss c2 (by simp [h2])
      simp [categoryScan, hc, ih2]
  · intro cats a n
    induction n with
    | zero => simp [batchCategoryScanSteps]
    | succ n ih =>
      simp only [batchCategoryScanSteps, List.replicate_succ, List.map_cons,
        List.sum_cons] at ih ⊢
      rw [ih]
      ring

/-- Witness for `c9_category_lookup_linear_scan` at a concrete input. -/
theorem c9_category_lookup_linear_scan_witness :
    (categoryScan ([⟨0, "a"⟩, ⟨1, "b"⟩] ++ [⟨9, "t"⟩]) 9).2 = 2 + 1 :=
  c9_category_lookup_linear_scan.1 [⟨0, "a"⟩, ⟨1, "b"⟩] 9 "t" (by decide)
